import Mathlib

/-!
Verification of the veccompress-core quantization and metrics pipeline.

The TypeScript source (src/utils.ts, src/metrics.ts, src/compressor.ts) is
shallowly embedded below.  JavaScript numbers are idealized as exact rationals
extended with a NaN element (`JSNum`): the code under study never produces an
Infinity on the paths the theorems talk about (every division whose divisor can
be zero either has a zero numerator, which is NaN, or is guarded), and no
theorem here concerns binary floating-point rounding.  `Math.sqrt` has no exact
rational counterpart, so every embedded definition that needs it takes an
explicit `sqrtFn : ℚ → ℚ` parameter; universal theorems quantify over `sqrtFn`,
and concrete evaluations instantiate it with `sqrtQ` below, which is exact on
the perfect squares (the only arguments that actually occur on those concrete
evaluation paths).

Rational arithmetic is routed through `Rat.divInt`-based primitives (`qadd`,
`qmul`, `qsub`, `qdivQ`, `qround`) because the Batteries `Rat.add`/`Rat.mul`/
`Rat.sub`/`Rat.inv` are `@[irreducible]` and do not evaluate inside `decide`.
Each primitive is proved equal to the standard field operation, so symbolic
reasoning happens over ordinary `ℚ` arithmetic.
-/

namespace VecCompress

/-- Kernel-reducible rational addition: equals `a + b` (see `qadd_eq`). -/
def qadd (a b : ℚ) : ℚ := Rat.divInt (a.num * b.den + b.num * a.den) (a.den * b.den)

/-- Kernel-reducible rational subtraction: equals `a - b` (see `qsub_eq`). -/
def qsub (a b : ℚ) : ℚ := Rat.divInt (a.num * b.den - b.num * a.den) (a.den * b.den)

/-- Kernel-reducible rational multiplication: equals `a * b` (see `qmul_eq`). -/
def qmul (a b : ℚ) : ℚ := Rat.divInt (a.num * b.num) (a.den * b.den)

/-- Kernel-reducible rational division: equals `a / b` (see `qdivQ_eq`). -/
def qdivQ (a b : ℚ) : ℚ := Rat.divInt (a.num * b.den) (a.den * b.num)

/-- Kernel-reducible floor: equals `⌊q⌋` (see `qfloor_eq`). -/
def qfloor (q : ℚ) : ℤ := q.num / q.den

/-- JavaScript `Math.round`: round half toward positive infinity,
`Math.round(x) = floor(x + 1/2)`.  Equals Mathlib `round` (see `qround_eq`). -/
def qround (q : ℚ) : ℤ := qfloor (qadd q (Rat.divInt 1 2))

theorem num_eq_self_mul_den (a : ℚ) : (a.num : ℚ) = a * a.den := by
  have ha : (a.den : ℚ) ≠ 0 := Nat.cast_ne_zero.mpr a.den_nz
  have h := Rat.num_div_den a
  rw [div_eq_iff ha] at h
  exact h

theorem qadd_eq (a b : ℚ) : qadd a b = a + b := by
  have ha : (a.den : ℚ) ≠ 0 := Nat.cast_ne_zero.mpr a.den_nz
  have hb : (b.den : ℚ) ≠ 0 := Nat.cast_ne_zero.mpr b.den_nz
  rw [qadd, Rat.divInt_eq_div, div_eq_iff (by push_cast; exact mul_ne_zero ha hb)]
  push_cast
  rw [num_eq_self_mul_den a, num_eq_self_mul_den b]
  ring

theorem qsub_eq (a b : ℚ) : qsub a b = a - b := by
  have ha : (a.den : ℚ) ≠ 0 := Nat.cast_ne_zero.mpr a.den_nz
  have hb : (b.den : ℚ) ≠ 0 := Nat.cast_ne_zero.mpr b.den_nz
  rw [qsub, Rat.divInt_eq_div, div_eq_iff (by push_cast; exact mul_ne_zero ha hb)]
  push_cast
  rw [num_eq_self_mul_den a, num_eq_self_mul_den b]
  ring

theorem qmul_eq (a b : ℚ) : qmul a b = a * b := by
  have ha : (a.den : ℚ) ≠ 0 := Nat.cast_ne_zero.mpr a.den_nz
  have hb : (b.den : ℚ) ≠ 0 := Nat.cast_ne_zero.mpr b.den_nz
  rw [qmul, Rat.divInt_eq_div, div_eq_iff (by push_cast; exact mul_ne_zero ha hb)]
  push_cast
  rw [num_eq_self_mul_den a, num_eq_self_mul_den b]
  ring

theorem qdivQ_eq (a b : ℚ) (hb : b ≠ 0) : qdivQ a b = a / b := by
  have ha : (a.den : ℚ) ≠ 0 := Nat.cast_ne_zero.mpr a.den_nz
  have hbd : (b.den : ℚ) ≠ 0 := Nat.cast_ne_zero.mpr b.den_nz
  have hbn : (b.num : ℚ) ≠ 0 := by
    rw [num_eq_self_mul_den]
    exact mul_ne_zero hb hbd
  rw [qdivQ, Rat.divInt_eq_div, div_eq_iff (by push_cast; exact mul_ne_zero ha hbn)]
  push_cast
  rw [num_eq_self_mul_den a, num_eq_self_mul_den b, div_mul_eq_mul_div, eq_comm,
    div_eq_iff hb]
  ring

theorem qfloor_eq (q : ℚ) : qfloor q = ⌊q⌋ := Rat.floor_def.symm

theorem qround_eq (q : ℚ) : qround q = round q := by
  rw [qround, qfloor_eq, qadd_eq, round_eq, Rat.divInt_eq_div]
  norm_num

/-- A structurally recursive natural square root used only inside `sqrtQ`. -/
def natSqrtLin (n : ℕ) : ℕ := ((List.range (n + 1)).filter (fun k => k * k ≤ n)).length - 1

/-- Concrete stand-in for `Math.sqrt` on exact rationals, used to instantiate
the `sqrtFn` parameter in concrete evaluations.  It is exact whenever the
numerator and denominator are perfect squares; every concrete evaluation in
this file only ever takes the square root of `0`, where `sqrtQ 0 = 0` agrees
with `Math.sqrt`. -/
def sqrtQ (x : ℚ) : ℚ := Rat.divInt (natSqrtLin x.num.toNat) (natSqrtLin x.den)

/-- JavaScript number idealized as an exact rational or NaN. -/
inductive JSNum where
  | nan : JSNum
  | val : ℚ → JSNum
deriving DecidableEq, Repr

namespace JSNum

/-- `a + b`: NaN-propagating addition. -/
def jadd : JSNum → JSNum → JSNum
  | val a, val b => val (qadd a b)
  | _, _ => nan

/-- `a - b`: NaN-propagating subtraction. -/
def jsub : JSNum → JSNum → JSNum
  | val a, val b => val (qsub a b)
  | _, _ => nan

/-- `a * b`: NaN-propagating multiplication. -/
def jmul : JSNum → JSNum → JSNum
  | val a, val b => val (qmul a b)
  | _, _ => nan

/-- `a / b`.  JavaScript yields NaN for `0/0` and `NaN/x`; a zero divisor with
a nonzero numerator would yield an Infinity, which this model does not carry —
in the embedded code every division whose divisor can be zero has a zero
numerator there or is guarded, so mapping that case to NaN is faithful on all
reachable paths. -/
def jdiv : JSNum → JSNum → JSNum
  | val a, val b => if b = 0 then nan else val (qdivQ a b)
  | _, _ => nan

/-- `a < b`: false whenever either side is NaN. -/
def jlt : JSNum → JSNum → Bool
  | val a, val b => decide (a < b)
  | _, _ => false

/-- `a <= b`: false whenever either side is NaN. -/
def jle : JSNum → JSNum → Bool
  | val a, val b => decide (a ≤ b)
  | _, _ => false

/-- `a > b`: false whenever either side is NaN. -/
def jgt (a b : JSNum) : Bool := jlt b a

/-- `Math.round`: NaN maps to NaN. -/
def jround : JSNum → JSNum
  | val a => val (qround a)
  | nan => nan

/-- `Math.min` of two numbers: NaN if either argument is NaN. -/
def jmin : JSNum → JSNum → JSNum
  | val a, val b => val (min a b)
  | _, _ => nan

/-- `Math.max` of two numbers: NaN if either argument is NaN. -/
def jmax : JSNum → JSNum → JSNum
  | val a, val b => val (max a b)
  | _, _ => nan

/-- `x ** 2`. -/
def jpow2 (x : JSNum) : JSNum := jmul x x

/-- JavaScript truthiness of a number: `0` and NaN are falsy. -/
def jtruthy : JSNum → Bool
  | val a => decide (a ≠ 0)
  | nan => false

end JSNum

/-- `reduce((a, b) => a + b, 0)` over a list of numbers. -/
def jsum (l : List JSNum) : JSNum := l.foldl JSNum.jadd (JSNum.val 0)

/-- `Math.max(...l)`: NaN-propagating maximum of a list.  JavaScript returns
`-Infinity` for an empty argument list; this model returns NaN instead, and the
embedded code only ever takes the maximum of an empty list where the result is
also discarded (see `calculateMetrics`: an empty `perDimensionMSE` forces a NaN
mean, so the `maxDimMSE / meanDimMSE` branch is not taken). -/
def jmaxList : List JSNum → JSNum
  | [] => JSNum.nan
  | x :: xs => xs.foldl JSNum.jmax x

/-- A vector: an ordered sequence of JavaScript numbers (src/types.ts `Vector`). -/
abbrev Vec := List JSNum

/-- `v[i]` as a JavaScript expression used in arithmetic: an out-of-range read
gives `undefined`, which coerces to NaN inside `-`/`*`. -/
def coordJ (v : Vec) (d : ℕ) : JSNum := (v.get? d).getD JSNum.nan

/-- src/utils.ts `euclideanDistance(a, b)`.  The `!a || !b` guard returns 0 for
a null/undefined argument, so the arguments are `Option`s; the loop runs over
`min(a.length, b.length)` coordinates and the result is `sqrt` of the
accumulated sum. -/
def euclideanDistance (sqrtFn : ℚ → ℚ) : Option Vec → Option Vec → JSNum
  | some a, some b =>
    let len := min a.length b.length
    let s := ((List.range len).map
      (fun i => JSNum.jpow2 (JSNum.jsub (coordJ a i) (coordJ b i)))).foldl
        JSNum.jadd (JSNum.val 0)
    match s with
    | JSNum.val q => if q < 0 then JSNum.nan else JSNum.val (sqrtFn q)
    | JSNum.nan => JSNum.nan
  | _, _ => JSNum.val 0

/-- Insert into an ascending list, after any element the comparator does not
place strictly greater: the stable-insert step of `sortAsc`. -/
def insertAsc (le : α → α → Bool) (x : α) : List α → List α
  | [] => [x]
  | y :: ys => if le y x then y :: insertAsc le x ys else x :: y :: ys

/-- Stable ascending sort (insertion sort), modelling `Array.prototype.sort`
with comparator `(a, b) => a.dist - b.dist`.  ECMAScript sort is required to be
stable, and for a total preorder comparator every stable sort produces the same
output; for NaN keys the JavaScript result is implementation-defined and no
theorem below depends on that case. -/
def sortAsc (le : α → α → Bool) (l : List α) : List α :=
  l.foldl (fun acc x => insertAsc le x acc) []

/-- src/utils.ts `findKNN(query, haystack, k)`: indices of `haystack` sorted by
ascending distance to `query`, truncated to `k`.  The self index is not
excluded.  The `!query || !haystack` guard is not representable (Lean values
are never null) and is dropped; all call sites pass present values. -/
def findKNN (sqrtFn : ℚ → ℚ) (query : Vec) (haystack : List Vec) (k : ℕ) : List ℕ :=
  let distances := (List.range haystack.length).map
    (fun i => (i, euclideanDistance sqrtFn (some query) (haystack.get? i)))
  let sorted := sortAsc (fun p q => JSNum.jle p.2 q.2) distances
  (sorted.map Prod.fst).take k

/-- All ordered pairs (earlier element, later element) of a list, in the order
visited by the nested `for (i) for (j = i + 1)` loops of the source. -/
def orderedPairs : List α → List (α × α)
  | [] => []
  | x :: xs => xs.map (fun y => (x, y)) ++ orderedPairs xs

/-- src/utils.ts `calculateKendallTau(orig, comp, sampleSize)`: Kendall-style
concordance over pairwise distances of a prefix of size
`min(orig.length, sampleSize)`.  `comp[i]` may be undefined when `comp` is
shorter; `euclideanDistance` then returns 0 via its null guard. -/
def calculateKendallTau (sqrtFn : ℚ → ℚ) (orig comp : List Vec) (sampleSize : ℕ) : JSNum :=
  let n := min orig.length sampleSize
  let pairs := (orderedPairs (List.range n)).map
    (fun ij => (euclideanDistance sqrtFn (orig.get? ij.1) (orig.get? ij.2),
                euclideanDistance sqrtFn (comp.get? ij.1) (comp.get? ij.2)))
  let pp := orderedPairs pairs
  let concordant := pp.countP
    (fun pq => JSNum.jgt (JSNum.jmul (JSNum.jsub pq.1.1 pq.2.1) (JSNum.jsub pq.1.2 pq.2.2))
      (JSNum.val 0))
  let discordant := pp.countP
    (fun pq => JSNum.jlt (JSNum.jmul (JSNum.jsub pq.1.1 pq.2.1) (JSNum.jsub pq.1.2 pq.2.2))
      (JSNum.val 0))
  if concordant + discordant = 0 then JSNum.val 0
  else JSNum.jdiv (JSNum.val (((concordant : ℤ) - (discordant : ℤ) : ℤ) : ℚ))
    (JSNum.val ((concordant + discordant : ℕ) : ℚ))

/-- `Math.round(val * 1000000) / 1000000` from `countUniqueVectors`. -/
def round6 : JSNum → JSNum
  | JSNum.val q => JSNum.val (qdivQ (qround (qmul q 1000000)) 1000000)
  | JSNum.nan => JSNum.nan

/-- src/utils.ts `countUniqueVectors(vectors)`: count distinct vectors after
rounding each coordinate to 6 decimal places, floored at 1.  The source joins
the rounded coordinates into a comma-separated string and counts distinct
strings; on numbers rounded to multiples of 1e-6 that string is injective, so
distinct strings correspond exactly to distinct rounded tuples (all NaN
coordinates print as the single string NaN, matching NaN equality in `JSNum`). -/
def countUniqueVectors (vectors : List Vec) : ℕ :=
  max 1 ((vectors.map (fun v => v.map round6)).dedup).length

/-- src/utils.ts `normalizeVectors(vectors)`: divide each vector by its
Euclidean norm; a vector whose computed norm is exactly 0 maps to the all-zero
vector.  (`mag === 0` is false for NaN, so a NaN magnitude falls through to the
division and every coordinate becomes NaN, as in JavaScript.) -/
def normalizeVectors (sqrtFn : ℚ → ℚ) (vectors : List Vec) : List Vec :=
  vectors.map (fun v =>
    let magSq := (v.map (fun x => JSNum.jmul x x)).foldl JSNum.jadd (JSNum.val 0)
    let mag := match magSq with
      | JSNum.val q => if q < 0 then JSNum.nan else JSNum.val (sqrtFn q)
      | JSNum.nan => JSNum.nan
    if mag = JSNum.val 0 then v.map (fun _ => JSNum.val 0)
    else v.map (fun x => JSNum.jdiv x mag))

/-- src/types.ts `Regime`. -/
inductive Regime where
  | STABLE : Regime
  | PRE_COLLAPSE : Regime
  | COLLAPSE : Regime
  | POST_COLLAPSE : Regime
deriving DecidableEq, Repr

/-- The string value of a `Regime` enum member (src/types.ts). -/
def regimeToString : Regime → String
  | Regime.STABLE => "STABLE"
  | Regime.PRE_COLLAPSE => "PRE_COLLAPSE"
  | Regime.COLLAPSE => "COLLAPSE"
  | Regime.POST_COLLAPSE => "POST_COLLAPSE"

/-- src/types.ts `CompressionMetrics`.  Fields marked optional in the
interface (`precision10?`, `kVariance?`, `perDimensionMSE?`,
`dimensionCollapseRatio?`, `centroidSurvivalRatio?`, `collapseIndex?`) are
`Option`s: `none` models an absent/undefined field. -/
structure CompressionMetrics where
  recall5 : JSNum
  recall10 : JSNum
  mrr : JSNum
  mse : JSNum
  localDistortion : JSNum
  trustworthiness : JSNum
  kendallTau : JSNum
  compressionRatio : JSNum
  precision10 : Option JSNum
  kVariance : Option JSNum
  perDimensionMSE : Option (List JSNum)
  dimensionCollapseRatio : Option JSNum
  centroidSurvivalRatio : Option JSNum
  collapseIndex : Option JSNum
deriving DecidableEq, Repr

/-- src/metrics.ts `safeDiv`: `(n, d) => (d === 0 || isNaN(n)) ? 0 : n / d`. -/
def safeDiv (n d : JSNum) : JSNum :=
  if d = JSNum.val 0 ∨ n = JSNum.nan then JSNum.val 0 else JSNum.jdiv n d

/-- The probe depths `kValues = [3, 7, 15, 30]` of src/metrics.ts. -/
def kValues : List ℕ := [3, 7, 15, 30]

/-- `Math.max(1, Math.floor(original.length / SAMPLE_LIMIT))` with
`SAMPLE_LIMIT = 200`: the sampling stride of `calculateMetrics`. -/
def sampleStride (n : ℕ) : ℕ := max 1 (n / 200)

/-- The query indices visited by `for (let i = 0; i < n; i += step)` with
`step = sampleStride n`: the multiples of the stride below `n`. -/
def sampleIndices (n : ℕ) : List ℕ :=
  (List.range n).filter (fun i => i % sampleStride n = 0)

/-- `new Set(comp).forEach(id => { if (new Set(tru).has(id)) count++ })`:
the number of distinct elements of `comp` that occur in `tru`. -/
def setIntersectionCount (comp tru : List ℕ) : ℕ :=
  (comp.dedup.filter (fun id => id ∈ tru)).length

/-- The per-query mean-reciprocal-rank contribution of src/metrics.ts lines
100-109: `trueNN[1]` is the target; if it is undefined the code adds 1; if it
is found in `compNN` at position `rank` the code adds `1/(rank+1)`; a lookup
miss (`indexOf` returning -1) adds nothing. -/
def mrrContrib (trueNN compNN : List ℕ) : JSNum :=
  match trueNN.get? 1 with
  | some target =>
    if target ∈ compNN then JSNum.val (qdivQ 1 ((compNN.indexOf target + 1 : ℕ) : ℚ))
    else JSNum.val 0
  | none => JSNum.val 1

/-- The mutable per-query accumulators of the sampling loop of
`calculateMetrics`. -/
structure MAcc where
  count : ℕ
  recall5Sum : JSNum
  recall10Sum : JSNum
  mrrSum : JSNum
  mseSum : JSNum
  localDistortionSum : JSNum
  trustworthinessSum : JSNum
  precision10Sum : JSNum
  recallAtK : List (List JSNum)
  perDimMSE : List JSNum
deriving DecidableEq, Repr

/-- The accumulators' initial state: all sums 0, one empty recall list per
probe depth, `Array(dim).fill(0)` for the per-dimension squared errors. -/
def initAcc (dim : ℕ) : MAcc :=
  { count := 0
    recall5Sum := JSNum.val 0
    recall10Sum := JSNum.val 0
    mrrSum := JSNum.val 0
    mseSum := JSNum.val 0
    localDistortionSum := JSNum.val 0
    trustworthinessSum := JSNum.val 0
    precision10Sum := JSNum.val 0
    recallAtK := kValues.map (fun _ => ([] : List JSNum))
    perDimMSE := List.replicate dim (JSNum.val 0) }

/-- One iteration of the sampling loop of `calculateMetrics` at query index
`i`.  `if (!compVec || !query) continue` skips indices where either vector is
missing (arrays, even empty ones, are truthy, so a present vector never
triggers the guard). -/
def metricsStep (sqrtFn : ℚ → ℚ) (original compressed : List Vec) (dim : ℕ)
    (acc : MAcc) (i : ℕ) : MAcc :=
  match original.get? i, compressed.get? i with
  | some query, some compVec =>
    let trueNN := findKNN sqrtFn query original 30
    let compNN := findKNN sqrtFn query compressed 30
    let inter5 := setIntersectionCount (compNN.take 5) (trueNN.take 5)
    let inter10 := setIntersectionCount (compNN.take 10) (trueNN.take 10)
    let sqDist := JSNum.jpow2 (euclideanDistance sqrtFn (some query) (some compVec))
    let nearest := (compNN.get? 0).bind (fun j => compressed.get? j)
    let distToNN := euclideanDistance sqrtFn (some query) nearest
    { count := acc.count + 1
      recall5Sum := JSNum.jadd acc.recall5Sum (JSNum.val (qdivQ inter5 5))
      recall10Sum := JSNum.jadd acc.recall10Sum (JSNum.val (qdivQ inter10 10))
      mrrSum := JSNum.jadd acc.mrrSum (mrrContrib trueNN compNN)
      mseSum := JSNum.jadd acc.mseSum sqDist
      localDistortionSum := JSNum.jadd acc.localDistortionSum distToNN
      trustworthinessSum := JSNum.jadd acc.trustworthinessSum (JSNum.val (qdivQ inter10 10))
      precision10Sum := JSNum.jadd acc.precision10Sum (JSNum.val (qdivQ inter10 10))
      recallAtK := List.zipWith
        (fun arr kVal => arr ++
          [JSNum.val (qdivQ (setIntersectionCount (compNN.take kVal) (trueNN.take kVal)) kVal)])
        acc.recallAtK kValues
      perDimMSE := List.zipWith
        (fun old d => JSNum.jadd old (JSNum.jpow2 (JSNum.jsub (coordJ query d) (coordJ compVec d))))
        acc.perDimMSE (List.range dim) }
  | _, _ => acc

/-- src/metrics.ts lines 146-153: per-depth means of the recorded recalls,
per-depth population variances, and their average. -/
def kVarianceOf (recallAtK : List (List JSNum)) : JSNum :=
  let kMeans := recallAtK.map (fun arr => JSNum.jdiv (jsum arr) (JSNum.val arr.length))
  let kVariances := List.zipWith
    (fun arr mean => JSNum.jdiv
      (jsum (arr.map (fun v => JSNum.jpow2 (JSNum.jsub v mean))))
      (JSNum.val arr.length))
    recallAtK kMeans
  JSNum.jdiv (jsum kVariances) (JSNum.val kVariances.length)

/-- src/metrics.ts lines 158-161: `meanDimMSE > 0 ? maxDimMSE / meanDimMSE : 1`. -/
def dimensionCollapseRatioOf (perDimensionMSE : List JSNum) : JSNum :=
  let maxDimMSE := jmaxList perDimensionMSE
  let meanDimMSE := JSNum.jdiv (jsum perDimensionMSE) (JSNum.val perDimensionMSE.length)
  if JSNum.jgt meanDimMSE (JSNum.val 0) then JSNum.jdiv maxDimMSE meanDimMSE
  else JSNum.val 1

/-- src/metrics.ts lines 174-178: the weighted composite collapse index
`0.35(1 - recall5) + 0.25(1 - precision10) + 0.20 min(1, 20 kVariance)
+ 0.20(1 - centroidSurvivalRatio)`, summed left to right. -/
def collapseIndexOf (recall5 precision10 kVariance centroidSurvivalRatio : JSNum) :
    JSNum :=
  JSNum.jadd
    (JSNum.jadd
      (JSNum.jadd
        (JSNum.jmul (JSNum.val (Rat.divInt 35 100)) (JSNum.jsub (JSNum.val 1) recall5))
        (JSNum.jmul (JSNum.val (Rat.divInt 25 100)) (JSNum.jsub (JSNum.val 1) precision10)))
      (JSNum.jmul (JSNum.val (Rat.divInt 20 100))
        (JSNum.jmin (JSNum.val 1) (JSNum.jmul kVariance (JSNum.val 20)))))
    (JSNum.jmul (JSNum.val (Rat.divInt 20 100))
      (JSNum.jsub (JSNum.val 1) centroidSurvivalRatio))

/-- The aggregation phase of `calculateMetrics` (src/metrics.ts lines
140-195), applied to the loop's final accumulator state. -/
def metricsFromAcc (kt : JSNum) (n uniqueCentroids : ℕ) (acc : MAcc) :
    CompressionMetrics :=
  let kVariance := kVarianceOf acc.recallAtK
  let perDimensionMSE := acc.perDimMSE.map (fun v => JSNum.jdiv v (JSNum.val acc.count))
  let dimensionCollapseRatio := dimensionCollapseRatioOf perDimensionMSE
  let centroidSurvivalRatio := JSNum.jdiv (JSNum.val uniqueCentroids) (JSNum.val n)
  let compressionRatio := JSNum.jdiv (JSNum.val n) (JSNum.val uniqueCentroids)
  let recall5 := safeDiv acc.recall5Sum (JSNum.val acc.count)
  let precision10 := safeDiv acc.precision10Sum (JSNum.val acc.count)
  let collapseIndex := collapseIndexOf recall5 precision10 kVariance centroidSurvivalRatio
  { recall5 := recall5
    recall10 := safeDiv acc.recall10Sum (JSNum.val acc.count)
    mrr := safeDiv acc.mrrSum (JSNum.val acc.count)
    mse := safeDiv acc.mseSum (JSNum.val acc.count)
    localDistortion := safeDiv acc.localDistortionSum (JSNum.val acc.count)
    trustworthiness := safeDiv acc.trustworthinessSum (JSNum.val acc.count)
    kendallTau := kt
    compressionRatio := compressionRatio
    precision10 := some precision10
    kVariance := some kVariance
    perDimensionMSE := some perDimensionMSE
    dimensionCollapseRatio := some dimensionCollapseRatio
    centroidSurvivalRatio := some centroidSurvivalRatio
    collapseIndex := some collapseIndex }

/-- src/metrics.ts `calculateMetrics(original, compressed, k)` — the spec's
`computeMetrics`.  The `k` parameter is accepted and unused, exactly as in the
source.  The `!original || !compressed` part of the empty-input guard is not
representable (Lean lists are never null); the `original.length === 0` part
is.  Note the empty branch does not set `collapseIndex` (it stays undefined). -/
def calculateMetrics (sqrtFn : ℚ → ℚ) (original compressed : List Vec) (k : ℕ) :
    CompressionMetrics :=
  if original.length = 0 then
    { recall5 := JSNum.val 0
      recall10 := JSNum.val 0
      mrr := JSNum.val 0
      mse := JSNum.val 0
      localDistortion := JSNum.val 0
      trustworthiness := JSNum.val 0
      kendallTau := JSNum.val 0
      compressionRatio := JSNum.val 0
      precision10 := some (JSNum.val 0)
      kVariance := some (JSNum.val 0)
      perDimensionMSE := some []
      dimensionCollapseRatio := some (JSNum.val 1)
      centroidSurvivalRatio := some (JSNum.val 0)
      collapseIndex := none }
  else
    let dim := (original.headD []).length
    let acc := (sampleIndices original.length).foldl
      (metricsStep sqrtFn original compressed dim) (initAcc dim)
    metricsFromAcc (calculateKendallTau sqrtFn original compressed 40)
      original.length (countUniqueVectors compressed) acc

/-- src/metrics.ts `detectRegime(metrics)` — the spec's `classifyRegime`.
`metrics.collapseIndex ?? 0` coalesces an absent field to 0. -/
def detectRegime (metrics : CompressionMetrics) : Regime :=
  let collapseIndex := metrics.collapseIndex.getD (JSNum.val 0)
  if JSNum.jlt collapseIndex (JSNum.val (Rat.divInt 15 100)) then Regime.STABLE
  else if JSNum.jlt collapseIndex (JSNum.val (Rat.divInt 35 100)) then Regime.PRE_COLLAPSE
  else if JSNum.jlt collapseIndex (JSNum.val (Rat.divInt 60 100)) then Regime.COLLAPSE
  else Regime.POST_COLLAPSE

/-- src/types.ts `CompressionMethod`. -/
inductive CompressionMethod where
  | LATTICE : CompressionMethod
  | BOUNDARY_AWARE : CompressionMethod
  | K_MEANS : CompressionMethod
  | RANDOM_PROJECTION : CompressionMethod
deriving DecidableEq, Repr

/-- src/types.ts `CompressionOptions`, fully resolved (`Required<...>`). -/
structure CompressionOptions where
  method : CompressionMethod
  gridStep : JSNum
  boundaryMargin : JSNum
  clusterCount : ℕ
  targetDim : ℕ
  k : ℕ
  normalize : Bool
  seed : ℕ
  targetRecall : JSNum
  autoAdjustGridStep : Bool
deriving Repr

/-- src/compressor.ts `DEFAULT_OPTIONS`. -/
def DEFAULT_OPTIONS : CompressionOptions :=
  { method := CompressionMethod.BOUNDARY_AWARE
    gridStep := JSNum.val (Rat.divInt 1 10)
    boundaryMargin := JSNum.val (Rat.divInt 1 10)
    clusterCount := 256
    targetDim := 0
    k := 10
    normalize := true
    seed := 42
    targetRecall := JSNum.val (Rat.divInt 95 100)
    autoAdjustGridStep := false }

/-- src/types.ts `CompressionResult` (the optional `metadata` field, never set
by `compress`, is omitted). -/
structure CompressionResult where
  compressed : List Vec
  compressionRatio : JSNum
deriving Repr

/-- src/types.ts `CompressionAnalysisResult`.  Optional fields are `Option`s;
`centroids` is never set by `compressWithAnalysis` and is always `none`. -/
structure CompressionAnalysisResult where
  compressed : List Vec
  original : Option (List Vec)
  metrics : CompressionMetrics
  regime : Regime
  compressionRatio : JSNum
  centroids : Option (List Vec)
  gridStep : Option JSNum
  warnings : Option (List String)
deriving Repr

/-- src/compressor.ts `latticeQuantization(vectors, step)`: snap every
coordinate to `round(val / step) * step`; identity when `step <= 0`. -/
def latticeQuantization (vectors : List Vec) (step : JSNum) : List Vec :=
  if JSNum.jle step (JSNum.val 0) then vectors
  else vectors.map (fun v => v.map
    (fun x => JSNum.jmul (JSNum.jround (JSNum.jdiv x step)) step))

/-- src/compressor.ts `boundaryAwareQuantization(vectors, baseStep,
threshold)`: coarse snap, fall back to the `baseStep / 2` grid when the
Euclidean distortion of the coarse snap exceeds the threshold; identity when
`baseStep <= 0`. -/
def boundaryAwareQuantization (sqrtFn : ℚ → ℚ) (vectors : List Vec)
    (baseStep threshold : JSNum) : List Vec :=
  if JSNum.jle baseStep (JSNum.val 0) then vectors
  else
    let fineStep := JSNum.jdiv baseStep (JSNum.val 2)
    vectors.map (fun v =>
      let coarse := v.map (fun x => JSNum.jmul (JSNum.jround (JSNum.jdiv x baseStep)) baseStep)
      let dist := euclideanDistance sqrtFn (some v) (some coarse)
      if JSNum.jgt dist threshold then
        v.map (fun x => JSNum.jmul (JSNum.jround (JSNum.jdiv x fineStep)) fineStep)
      else coarse)

/-- The `switch (this.options.method)` dispatch of `compress`: the K_MEANS and
RANDOM_PROJECTION arms (and the default arm) pass the input through. -/
def applyMethod (sqrtFn : ℚ → ℚ) (opts : CompressionOptions) (processed : List Vec) :
    List Vec :=
  match opts.method with
  | CompressionMethod.LATTICE => latticeQuantization processed opts.gridStep
  | CompressionMethod.BOUNDARY_AWARE =>
    boundaryAwareQuantization sqrtFn processed opts.gridStep opts.boundaryMargin
  | CompressionMethod.K_MEANS => processed
  | CompressionMethod.RANDOM_PROJECTION => processed

/-- src/compressor.ts `compress(vectors)`: empty input short-circuits to an
empty result with ratio 1.0; otherwise optional normalization, method
dispatch, and ratio `vectors.length / countUniqueVectors(compressed)`. -/
def compress (sqrtFn : ℚ → ℚ) (opts : CompressionOptions) (vectors : List Vec) :
    CompressionResult :=
  if vectors.length = 0 then
    { compressed := [], compressionRatio := JSNum.val 1 }
  else
    let processedVectors := if opts.normalize then normalizeVectors sqrtFn vectors else vectors
    let compressed := applyMethod sqrtFn opts processedVectors
    let uniqueCentroids := countUniqueVectors compressed
    { compressed := compressed
      compressionRatio := JSNum.jdiv (JSNum.val vectors.length) (JSNum.val uniqueCentroids) }

/-- src/compressor.ts `emptyMetrics()`: the bundle used by the empty-input
branch of `compressWithAnalysis` (unlike the empty branch of
`calculateMetrics`, it does set `collapseIndex: 0` and uses 1.0 ratios). -/
def emptyMetrics : CompressionMetrics :=
  { recall5 := JSNum.val 0
    recall10 := JSNum.val 0
    mrr := JSNum.val 0
    mse := JSNum.val 0
    localDistortion := JSNum.val 0
    trustworthiness := JSNum.val 0
    kendallTau := JSNum.val 0
    compressionRatio := JSNum.val 1
    precision10 := some (JSNum.val 0)
    kVariance := some (JSNum.val 0)
    perDimensionMSE := some []
    dimensionCollapseRatio := some (JSNum.val 1)
    centroidSurvivalRatio := some (JSNum.val 1)
    collapseIndex := some (JSNum.val 0) }

/-- src/compressor.ts `compressWithAnalysis(vectors)` — the spec's
`runPipeline`.  Truthiness of the optional metric fields in the warning
conditions (`metrics.kVariance && metrics.kVariance > 0.02`) treats an absent
field, 0 and NaN as falsy.  The result's `warnings` field is set only when at
least one warning was produced, and `gridStep` is not set on the empty-input
branch. -/
def compressWithAnalysis (sqrtFn : ℚ → ℚ) (opts : CompressionOptions)
    (vectors : List Vec) : CompressionAnalysisResult :=
  if vectors.length = 0 then
    { compressed := []
      original := some vectors
      metrics := emptyMetrics
      regime := Regime.STABLE
      compressionRatio := JSNum.val 1
      centroids := none
      gridStep := none
      warnings := some ["Empty input vectors"] }
  else
    let result := compress sqrtFn opts vectors
    let metrics := calculateMetrics sqrtFn vectors result.compressed opts.k
    let regime := detectRegime metrics
    let degradationWarnings : List String :=
      if regime = Regime.COLLAPSE ∨ regime = Regime.POST_COLLAPSE then
        ["Quality degradation detected (" ++ regimeToString regime ++
          "). Consider reducing gridStep or using boundary-aware method."]
      else []
    let kVarianceWarnings : List String :=
      match metrics.kVariance with
      | some kv =>
        if JSNum.jtruthy kv && JSNum.jgt kv (JSNum.val (Rat.divInt 2 100)) then
          ["High k-variance detected - topology may be unstable."]
        else []
      | none => []
    let dimensionWarnings : List String :=
      match metrics.dimensionCollapseRatio with
      | some d =>
        if JSNum.jtruthy d && JSNum.jgt d (JSNum.val 2) then
          ["Dimension-specific collapse detected - some features affected more than others."]
        else []
      | none => []
    let warnings := degradationWarnings ++ kVarianceWarnings ++ dimensionWarnings
    { compressed := result.compressed
      original := some vectors
      metrics := metrics
      regime := regime
      compressionRatio := result.compressionRatio
      centroids := none
      gridStep := some opts.gridStep
      warnings := if warnings.length > 0 then some warnings else none }

/-! ### Helper lemmas -/

theorem jadd_nan_left (x : JSNum) : JSNum.jadd JSNum.nan x = JSNum.nan := by
  cases x <;> rfl

theorem jadd_nan_right (x : JSNum) : JSNum.jadd x JSNum.nan = JSNum.nan := by
  cases x <;> rfl

theorem jadd_ne_nan {x y : JSNum} (h : JSNum.jadd x y ≠ JSNum.nan) :
    x ≠ JSNum.nan ∧ y ≠ JSNum.nan := by
  cases x <;> cases y <;> simp_all [JSNum.jadd]

theorem foldl_jadd_ne_nan {l : List JSNum} {a : JSNum}
    (h : l.foldl JSNum.jadd a ≠ JSNum.nan) :
    a ≠ JSNum.nan ∧ ∀ x ∈ l, x ≠ JSNum.nan := by
  induction l generalizing a with
  | nil => exact ⟨h, by simp⟩
  | cons y ys ih =>
    have h' := ih h
    have hay := jadd_ne_nan h'.1
    refine ⟨hay.1, ?_⟩
    intro x hx
    rcases List.mem_cons.mp hx with rfl | hx
    · exact hay.2
    · exact h'.2 x hx

theorem jsum_ne_nan {l : List JSNum} (h : jsum l ≠ JSNum.nan) :
    ∀ x ∈ l, x ≠ JSNum.nan := (foldl_jadd_ne_nan h).2

theorem jmax_val (a b : ℚ) :
    JSNum.jmax (JSNum.val a) (JSNum.val b) = JSNum.val (max a b) := rfl

theorem foldl_jmax_ne_nan {l : List JSNum} {a : JSNum} (ha : a ≠ JSNum.nan)
    (h : ∀ x ∈ l, x ≠ JSNum.nan) : l.foldl JSNum.jmax a ≠ JSNum.nan := by
  induction l generalizing a with
  | nil => exact ha
  | cons y ys ih =>
    have hy : y ≠ JSNum.nan := h y (List.mem_cons_self y ys)
    have hstep : JSNum.jmax a y ≠ JSNum.nan := by
      cases a with
      | nan => exact absurd rfl ha
      | val qa =>
        cases y with
        | nan => exact absurd rfl hy
        | val qb => simp [JSNum.jmax]
    exact ih hstep (fun x hx => h x (List.mem_cons_of_mem y hx))

theorem jmaxList_ne_nan {l : List JSNum} (hne : l ≠ [])
    (h : ∀ x ∈ l, x ≠ JSNum.nan) : jmaxList l ≠ JSNum.nan := by
  cases l with
  | nil => exact absurd rfl hne
  | cons x xs =>
    exact foldl_jmax_ne_nan (h x (List.mem_cons_self x xs))
      (fun y hy => h y (List.mem_cons_of_mem x hy))

theorem jdiv_val_ne_nan (a : ℚ) {c : ℚ} (hc : c ≠ 0) :
    JSNum.jdiv (JSNum.val a) (JSNum.val c) ≠ JSNum.nan := by
  simp [JSNum.jdiv, hc]

theorem jdiv_zero_den (x : JSNum) :
    JSNum.jdiv x (JSNum.val 0) = JSNum.nan := by
  cases x <;> simp [JSNum.jdiv]

/-- `safeDiv` with a natural-number divisor (the loop counter) never produces
NaN: a zero divisor or NaN numerator yields 0, and otherwise the quotient of a
rational by a nonzero natural is a rational. -/
theorem safeDiv_count_ne_nan (n : JSNum) (c : ℕ) :
    safeDiv n (JSNum.val c) ≠ JSNum.nan := by
  rw [safeDiv]
  split
  · simp
  · rename_i hguard
    push_neg at hguard
    obtain ⟨hd, hn⟩ := hguard
    cases n with
    | nan => exact absurd rfl hn
    | val a =>
      apply jdiv_val_ne_nan
      intro h0
      exact hd (by rw [h0])

theorem calculateKendallTau_ne_nan (sqrtFn : ℚ → ℚ) (orig comp : List Vec)
    (sampleSize : ℕ) :
    calculateKendallTau sqrtFn orig comp sampleSize ≠ JSNum.nan := by
  rw [calculateKendallTau]
  split
  · simp
  · rename_i hzero
    apply jdiv_val_ne_nan
    exact_mod_cast hzero

theorem jgt_val_zero {x : JSNum} (h : JSNum.jgt x (JSNum.val 0) = true) :
    ∃ q : ℚ, x = JSNum.val q ∧ 0 < q := by
  cases x with
  | nan => simp [JSNum.jgt, JSNum.jlt] at h
  | val q =>
    refine ⟨q, rfl, ?_⟩
    simpa [JSNum.jgt, JSNum.jlt] using h

theorem jdiv_ne_nan_parts {x y : JSNum} (h : JSNum.jdiv x y ≠ JSNum.nan) :
    x ≠ JSNum.nan ∧ y ≠ JSNum.nan ∧ y ≠ JSNum.val 0 := by
  cases x with
  | nan => simp [JSNum.jdiv] at h
  | val a =>
    cases y with
    | nan => simp [JSNum.jdiv] at h
    | val b =>
      refine ⟨by simp, by simp, ?_⟩
      intro hb
      rw [hb] at h
      simp [JSNum.jdiv] at h

/-- The `meanDimMSE > 0 ? maxDimMSE / meanDimMSE : 1` computation of
`calculateMetrics` never produces NaN: a positive mean forces every entry of
the list to be a rational (NaN poisons sums), hence a rational maximum. -/
theorem dimensionCollapseRatioOf_ne_nan (l : List JSNum) :
    dimensionCollapseRatioOf l ≠ JSNum.nan := by
  rw [dimensionCollapseRatioOf]
  split
  · rename_i hgt
    obtain ⟨q, hmean, hq⟩ := jgt_val_zero hgt
    have hne : JSNum.jdiv (jsum l) (JSNum.val (l.length : ℚ)) ≠ JSNum.nan := by
      rw [hmean]
      simp
    have hparts := jdiv_ne_nan_parts hne
    have hlen : l ≠ [] := by
      intro hnil
      subst hnil
      simp at hparts
    have hmax := jmaxList_ne_nan hlen (jsum_ne_nan hparts.1)
    cases hmaxv : jmaxList l with
    | nan => exact absurd hmaxv hmax
    | val m =>
      rw [hmean]
      exact jdiv_val_ne_nan m (ne_of_gt hq)
  · simp

theorem normalizeVectors_length (sqrtFn : ℚ → ℚ) (vectors : List Vec) :
    (normalizeVectors sqrtFn vectors).length = vectors.length := by
  simp [normalizeVectors]

theorem latticeQuantization_length (vectors : List Vec) (step : JSNum) :
    (latticeQuantization vectors step).length = vectors.length := by
  rw [latticeQuantization]
  split <;> simp

theorem boundaryAwareQuantization_length (sqrtFn : ℚ → ℚ) (vectors : List Vec)
    (baseStep threshold : JSNum) :
    (boundaryAwareQuantization sqrtFn vectors baseStep threshold).length =
      vectors.length := by
  rw [boundaryAwareQuantization]
  split <;> simp

theorem applyMethod_length (sqrtFn : ℚ → ℚ) (opts : CompressionOptions)
    (processed : List Vec) :
    (applyMethod sqrtFn opts processed).length = processed.length := by
  rw [applyMethod]
  cases opts.method <;>
    simp [latticeQuantization_length, boundaryAwareQuantization_length]

theorem one_le_countUniqueVectors (vectors : List Vec) :
    1 ≤ countUniqueVectors vectors := le_max_left 1 _

theorem countUniqueVectors_le_length (vectors : List Vec) (h : vectors ≠ []) :
    countUniqueVectors vectors ≤ vectors.length := by
  rw [countUniqueVectors]
  have hd : ((vectors.map (fun v => v.map round6)).dedup).length ≤ vectors.length := by
    calc ((vectors.map (fun v => v.map round6)).dedup).length
        ≤ (vectors.map (fun v => v.map round6)).length :=
          (List.dedup_sublist _).length_le
      _ = vectors.length := by simp
  have hpos : 1 ≤ vectors.length := by
    cases vectors with
    | nil => exact absurd rfl h
    | cons x xs => simp
  omega

/-- The ratio `n / u` of two positive naturals with `u ≤ n`, computed in the
model, is a rational at least 1. -/
theorem jdiv_nat_ratio_ge_one {n u : ℕ} (hu : 1 ≤ u) (hun : u ≤ n) :
    ∃ q : ℚ, JSNum.jdiv (JSNum.val n) (JSNum.val u) = JSNum.val q ∧ 1 ≤ q := by
  have huq : ((u : ℚ)) ≠ 0 := Nat.cast_ne_zero.mpr (by omega)
  refine ⟨qdivQ n u, ?_, ?_⟩
  · simp [JSNum.jdiv, huq]
  · rw [qdivQ_eq _ _ huq, le_div_iff₀ (by positivity)]
    simpa using hun

/-- A metrics bundle whose fields are all zero except an arbitrary collapse
index, used to exercise `detectRegime` on concrete inputs. -/
def sampleBundle (ci : Option JSNum) : CompressionMetrics :=
  { recall5 := JSNum.val 0
    recall10 := JSNum.val 0
    mrr := JSNum.val 0
    mse := JSNum.val 0
    localDistortion := JSNum.val 0
    trustworthiness := JSNum.val 0
    kendallTau := JSNum.val 0
    compressionRatio := JSNum.val 0
    precision10 := some (JSNum.val 0)
    kVariance := some (JSNum.val 0)
    perDimensionMSE := some []
    dimensionCollapseRatio := some (JSNum.val 1)
    centroidSurvivalRatio := some (JSNum.val 0)
    collapseIndex := ci }

/-! ### Claim theorems -/

set_option maxRecDepth 20000 in
/-- Claim C2 (code_bug evaluation): with 250 input vectors the sampling stride
`max(1, floor(250 / 200))` is 1, so the sampling loop of `calculateMetrics`
visits all 250 query indices — more than the 200-point cap stated by the spec
and by the source's own `SAMPLE_LIMIT = 200` comment. -/
theorem sampling_loop_exceeds_cap_at_250 :
    sampleStride 250 = 1 ∧ (sampleIndices 250).length = 250 ∧
      200 < (sampleIndices 250).length := by
  refine ⟨rfl, ?_, ?_⟩ <;> decide

/-- Claim C4: `compressWithAnalysis` on an empty vector set returns the fixed
trivial result — empty compressed set, the `emptyMetrics` bundle, STABLE
regime, ratio 1.0 and exactly the one warning string noting the empty input —
for every configuration and every square-root function, i.e. without invoking
the quantizer, the metrics engine or the classifier. -/
theorem compressWithAnalysis_empty (sqrtFn : ℚ → ℚ) (opts : CompressionOptions) :
    compressWithAnalysis sqrtFn opts [] =
      { compressed := []
        original := some []
        metrics := emptyMetrics
        regime := Regime.STABLE
        compressionRatio := JSNum.val 1
        centroids := none
        gridStep := none
        warnings := some ["Empty input vectors"] } := rfl

/-- Claim C6 (counterexample): on an empty original set, `calculateMetrics`
leaves `collapseIndex` undefined (`none`), not zero, so the returned bundle is
not "all zero except dimensionCollapseRatio". -/
theorem calculateMetrics_empty_collapseIndex_undefined :
    (calculateMetrics sqrtQ [] [] 10).collapseIndex = none ∧
      (none : Option JSNum) ≠ some (JSNum.val 0) := ⟨rfl, by decide⟩

/-- Claim C6 (amended): on an empty original set `calculateMetrics` returns
the bundle whose present fields are all zero except `dimensionCollapseRatio`,
which is 1; `perDimensionMSE` is the empty list and `collapseIndex` is left
undefined rather than set to 0. -/
theorem calculateMetrics_empty_bundle (sqrtFn : ℚ → ℚ) (compressed : List Vec)
    (k : ℕ) :
    calculateMetrics sqrtFn [] compressed k =
      { recall5 := JSNum.val 0
        recall10 := JSNum.val 0
        mrr := JSNum.val 0
        mse := JSNum.val 0
        localDistortion := JSNum.val 0
        trustworthiness := JSNum.val 0
        kendallTau := JSNum.val 0
        compressionRatio := JSNum.val 0
        precision10 := some (JSNum.val 0)
        kVariance := some (JSNum.val 0)
        perDimensionMSE := some []
        dimensionCollapseRatio := some (JSNum.val 1)
        centroidSurvivalRatio := some (JSNum.val 0)
        collapseIndex := none } := rfl

/-- Claim C7: `detectRegime` is a total function classifying by the fixed
breakpoints 0.15, 0.35, 0.60 on the collapse index, an absent collapse index
is treated as 0 and classified STABLE, and even a NaN collapse index is
classified (as POST_COLLAPSE, every comparison with NaN being false). -/
theorem detectRegime_breakpoints (m : CompressionMetrics) :
    (m.collapseIndex = none → detectRegime m = Regime.STABLE) ∧
    (m.collapseIndex = some JSNum.nan → detectRegime m = Regime.POST_COLLAPSE) ∧
    (∀ q : ℚ, m.collapseIndex = some (JSNum.val q) →
      ((q < Rat.divInt 15 100 → detectRegime m = Regime.STABLE) ∧
       (Rat.divInt 15 100 ≤ q → q < Rat.divInt 35 100 →
         detectRegime m = Regime.PRE_COLLAPSE) ∧
       (Rat.divInt 35 100 ≤ q → q < Rat.divInt 60 100 →
         detectRegime m = Regime.COLLAPSE) ∧
       (Rat.divInt 60 100 ≤ q → detectRegime m = Regime.POST_COLLAPSE))) := by
  have h015 : (0 : ℚ) < Rat.divInt 15 100 := by
    rw [Rat.divInt_eq_div]
    norm_num
  refine ⟨?_, ?_, ?_⟩
  · intro h
    simp [detectRegime, h, JSNum.jlt, h015]
  · intro h
    simp [detectRegime, h, JSNum.jlt]
  · intro q h
    refine ⟨?_, ?_, ?_, ?_⟩
    · intro hq
      simp [detectRegime, h, JSNum.jlt, hq]
    · intro hq1 hq2
      simp [detectRegime, h, JSNum.jlt, not_lt.mpr hq1, hq2]
    · intro hq1 hq2
      have h35 : ¬ q < Rat.divInt 15 100 := by
        intro hcon
        have : Rat.divInt 15 100 < Rat.divInt 35 100 := by
          rw [Rat.divInt_eq_div, Rat.divInt_eq_div]
          norm_num
        exact absurd (lt_of_lt_of_le this hq1) (not_lt.mpr hcon.le)
      simp [detectRegime, h, JSNum.jlt, h35, not_lt.mpr hq1, hq2]
    · intro hq1
      have h15 : Rat.divInt 15 100 ≤ q := by
        refine le_trans ?_ hq1
        rw [Rat.divInt_eq_div, Rat.divInt_eq_div]
        norm_num
      have h35 : Rat.divInt 35 100 ≤ q := by
        refine le_trans ?_ hq1
        rw [Rat.divInt_eq_div, Rat.divInt_eq_div]
        norm_num
      simp [detectRegime, h, JSNum.jlt, not_lt.mpr h15, not_lt.mpr h35,
        not_lt.mpr hq1]

/-- Witness for C7: the breakpoints at the spec's sample points 0 (absent),
0.10, 0.20, 0.40 and 0.80. -/
theorem detectRegime_breakpoints_witness :
    detectRegime (sampleBundle none) = Regime.STABLE ∧
    detectRegime (sampleBundle (some (JSNum.val (Rat.divInt 1 10)))) = Regime.STABLE ∧
    detectRegime (sampleBundle (some (JSNum.val (Rat.divInt 2 10)))) = Regime.PRE_COLLAPSE ∧
    detectRegime (sampleBundle (some (JSNum.val (Rat.divInt 4 10)))) = Regime.COLLAPSE ∧
    detectRegime (sampleBundle (some (JSNum.val (Rat.divInt 8 10)))) = Regime.POST_COLLAPSE :=
  ⟨(detectRegime_breakpoints (sampleBundle none)).1 rfl,
   ((detectRegime_breakpoints _).2.2 (Rat.divInt 1 10) rfl).1 (by decide),
   ((detectRegime_breakpoints _).2.2 (Rat.divInt 2 10) rfl).2.1 (by decide) (by decide),
   ((detectRegime_breakpoints _).2.2 (Rat.divInt 4 10) rfl).2.2.1 (by decide) (by decide),
   ((detectRegime_breakpoints _).2.2 (Rat.divInt 8 10) rfl).2.2.2 (by decide)⟩

/-- Per-coordinate idempotence of the grid snap `x ↦ round(x / s) * s`. -/
theorem snap_idem (s : ℚ) (hs : s ≠ 0) (x : JSNum) :
    JSNum.jmul (JSNum.jround (JSNum.jdiv
        (JSNum.jmul (JSNum.jround (JSNum.jdiv x (JSNum.val s))) (JSNum.val s))
        (JSNum.val s))) (JSNum.val s) =
      JSNum.jmul (JSNum.jround (JSNum.jdiv x (JSNum.val s))) (JSNum.val s) := by
  cases x with
  | nan => simp [JSNum.jdiv, JSNum.jround, JSNum.jmul]
  | val q =>
    simp only [JSNum.jdiv, JSNum.jround, JSNum.jmul, if_neg hs, qdivQ_eq _ _ hs,
      qmul_eq, qround_eq]
    rw [mul_div_cancel_right₀ _ hs, round_intCast]

/-- Claim C8: lattice quantization with a positive step is idempotent — its
output is a fixed point of the grid snap at the same step (exact for the
idealized arithmetic of the model; NaN coordinates are also fixed, NaN
mapping to NaN). -/
theorem latticeQuantization_idempotent (s : ℚ) (hs : 0 < s) (vectors : List Vec) :
    latticeQuantization (latticeQuantization vectors (JSNum.val s)) (JSNum.val s) =
      latticeQuantization vectors (JSNum.val s) := by
  have hle : JSNum.jle (JSNum.val s) (JSNum.val 0) = false := by
    simp [JSNum.jle, not_le.mpr hs]
  simp only [latticeQuantization, hle, Bool.false_eq_true, if_false, List.map_map]
  apply List.map_congr_left
  intro v _
  simp only [Function.comp, List.map_map]
  apply List.map_congr_left
  intro x _
  exact snap_idem s (ne_of_gt hs) x

/-- Witness for C8: idempotence at step 1/2 on a concrete vector. -/
theorem latticeQuantization_idempotent_witness :
    latticeQuantization
        (latticeQuantization [[JSNum.val (Rat.divInt 7 10)]] (JSNum.val (Rat.divInt 1 2)))
        (JSNum.val (Rat.divInt 1 2)) =
      latticeQuantization [[JSNum.val (Rat.divInt 7 10)]] (JSNum.val (Rat.divInt 1 2)) :=
  latticeQuantization_idempotent (Rat.divInt 1 2) (by decide) [[JSNum.val (Rat.divInt 7 10)]]

/-- Claim C9: with a non-positive grid step, both the lattice and the
boundary-aware quantization transforms return the input unchanged. -/
theorem quantizers_identity_on_nonpositive_step (sqrtFn : ℚ → ℚ)
    (vectors : List Vec) (s : ℚ) (margin : JSNum) (hs : s ≤ 0) :
    latticeQuantization vectors (JSNum.val s) = vectors ∧
    boundaryAwareQuantization sqrtFn vectors (JSNum.val s) margin = vectors := by
  have hle : JSNum.jle (JSNum.val s) (JSNum.val 0) = true := by
    simp [JSNum.jle, hs]
  constructor
  · rw [latticeQuantization]
    simp [hle]
  · rw [boundaryAwareQuantization]
    simp [hle]

/-- A NaN k-variance poisons the whole composite collapse index: the
`min(1, kVariance * 20)` term is NaN and NaN propagates through the sum. -/
theorem collapseIndexOf_nan_kVariance (r p c : JSNum) :
    collapseIndexOf r p JSNum.nan c = JSNum.nan := by
  have h1 : JSNum.jmul JSNum.nan (JSNum.val 20) = JSNum.nan := rfl
  have h2 : JSNum.jmin (JSNum.val 1) JSNum.nan = JSNum.nan := rfl
  have h3 : JSNum.jmul (JSNum.val (Rat.divInt 20 100)) JSNum.nan = JSNum.nan := rfl
  rw [collapseIndexOf, h1, h2, h3, jadd_nan_right, jadd_nan_left]

/-- When every visited index has no compressed vector, each iteration of the
sampling loop takes the `continue` branch and the accumulators are left at
their initial state. -/
theorem foldl_metricsStep_skip (sqrtFn : ℚ → ℚ) (original compressed : List Vec)
    (dim : ℕ) {is : List ℕ} (h : ∀ i ∈ is, compressed.get? i = none) (acc : MAcc) :
    is.foldl (metricsStep sqrtFn original compressed dim) acc = acc := by
  induction is generalizing acc with
  | nil => rfl
  | cons i rest ih =>
    rw [List.foldl_cons]
    have hstep : metricsStep sqrtFn original compressed dim acc i = acc := by
      rw [metricsStep, h i (List.mem_cons_self i rest)]
      cases original.get? i <;> rfl
    rw [hstep]
    exact ih (fun j hj => h j (List.mem_cons_of_mem i hj)) acc

/-- The non-optional and `safeDiv`-protected fields produced by the
aggregation phase are never NaN, given a non-NaN rank correlation and nonzero
vector and centroid counts. -/
theorem metricsFromAcc_fields_ne_nan (kt : JSNum) (hkt : kt ≠ JSNum.nan)
    {n u : ℕ} (hn : n ≠ 0) (hu : u ≠ 0) (acc : MAcc) :
    (metricsFromAcc kt n u acc).recall5 ≠ JSNum.nan ∧
    (metricsFromAcc kt n u acc).recall10 ≠ JSNum.nan ∧
    (metricsFromAcc kt n u acc).mrr ≠ JSNum.nan ∧
    (metricsFromAcc kt n u acc).mse ≠ JSNum.nan ∧
    (metricsFromAcc kt n u acc).localDistortion ≠ JSNum.nan ∧
    (metricsFromAcc kt n u acc).trustworthiness ≠ JSNum.nan ∧
    (metricsFromAcc kt n u acc).kendallTau ≠ JSNum.nan ∧
    (metricsFromAcc kt n u acc).compressionRatio ≠ JSNum.nan ∧
    (∀ x, (metricsFromAcc kt n u acc).precision10 = some x → x ≠ JSNum.nan) ∧
    (∀ x, (metricsFromAcc kt n u acc).dimensionCollapseRatio = some x → x ≠ JSNum.nan) ∧
    (∀ x, (metricsFromAcc kt n u acc).centroidSurvivalRatio = some x → x ≠ JSNum.nan) := by
  have hnq : ((n : ℚ)) ≠ 0 := Nat.cast_ne_zero.mpr hn
  have huq : ((u : ℚ)) ≠ 0 := Nat.cast_ne_zero.mpr hu
  refine ⟨safeDiv_count_ne_nan _ _, safeDiv_count_ne_nan _ _, safeDiv_count_ne_nan _ _,
    safeDiv_count_ne_nan _ _, safeDiv_count_ne_nan _ _, safeDiv_count_ne_nan _ _,
    hkt, jdiv_val_ne_nan _ huq, ?_, ?_, ?_⟩
  · intro x hx
    have : x = safeDiv acc.precision10Sum (JSNum.val acc.count) :=
      (Option.some_inj.mp hx).symm
    rw [this]
    exact safeDiv_count_ne_nan _ _
  · intro x hx
    have : x = dimensionCollapseRatioOf
        (acc.perDimMSE.map (fun v => JSNum.jdiv v (JSNum.val acc.count))) :=
      (Option.some_inj.mp hx).symm
    rw [this]
    exact dimensionCollapseRatioOf_ne_nan _
  · intro x hx
    have : x = JSNum.jdiv (JSNum.val u) (JSNum.val n) :=
      (Option.some_inj.mp hx).symm
    rw [this]
    exact jdiv_val_ne_nan _ hnq

set_option maxRecDepth 20000 in
/-- Claim C1 (counterexample): on a nonempty original paired with an empty
compressed set, no query index samples successfully and the fields that are
not `safeDiv`-protected come out NaN: `kVariance`, `collapseIndex` and every
entry of `perDimensionMSE` are NaN. -/
theorem nan_metrics_counterexample :
    (calculateMetrics sqrtQ [[JSNum.val 0]] [] 10).kVariance = some JSNum.nan ∧
    (calculateMetrics sqrtQ [[JSNum.val 0]] [] 10).collapseIndex = some JSNum.nan ∧
    (calculateMetrics sqrtQ [[JSNum.val 0]] [] 10).perDimensionMSE = some [JSNum.nan] := by
  refine ⟨?_, ?_, ?_⟩ <;> decide

/-- Claim C1 (amended): the fields aggregated through `safeDiv`
(recall5/10, mrr, mse, localDistortion, trustworthiness, precision10) and the
guarded fields (kendallTau, compressionRatio, centroidSurvivalRatio,
dimensionCollapseRatio) are never NaN for any pair of input vector sets; but
`kVariance`, `perDimensionMSE` and `collapseIndex` are not `safeDiv`-protected
— whenever the original is nonempty and no sampled index has a compressed
vector (so zero queries sample successfully), `kVariance` and `collapseIndex`
are NaN and every entry of `perDimensionMSE` is NaN. -/
theorem calculateMetrics_nan_profile (sqrtFn : ℚ → ℚ)
    (original compressed : List Vec) (k : ℕ) :
    ((calculateMetrics sqrtFn original compressed k).recall5 ≠ JSNum.nan ∧
     (calculateMetrics sqrtFn original compressed k).recall10 ≠ JSNum.nan ∧
     (calculateMetrics sqrtFn original compressed k).mrr ≠ JSNum.nan ∧
     (calculateMetrics sqrtFn original compressed k).mse ≠ JSNum.nan ∧
     (calculateMetrics sqrtFn original compressed k).localDistortion ≠ JSNum.nan ∧
     (calculateMetrics sqrtFn original compressed k).trustworthiness ≠ JSNum.nan ∧
     (calculateMetrics sqrtFn original compressed k).kendallTau ≠ JSNum.nan ∧
     (calculateMetrics sqrtFn original compressed k).compressionRatio ≠ JSNum.nan ∧
     (∀ x, (calculateMetrics sqrtFn original compressed k).precision10 = some x →
       x ≠ JSNum.nan) ∧
     (∀ x, (calculateMetrics sqrtFn original compressed k).dimensionCollapseRatio = some x →
       x ≠ JSNum.nan) ∧
     (∀ x, (calculateMetrics sqrtFn original compressed k).centroidSurvivalRatio = some x →
       x ≠ JSNum.nan)) ∧
    (original ≠ [] →
     (∀ i ∈ sampleIndices original.length, compressed.get? i = none) →
     (calculateMetrics sqrtFn original compressed k).kVariance = some JSNum.nan ∧
     (calculateMetrics sqrtFn original compressed k).collapseIndex = some JSNum.nan ∧
     (∀ l, (calculateMetrics sqrtFn original compressed k).perDimensionMSE = some l →
       ∀ x ∈ l, x = JSNum.nan)) := by
  constructor
  · by_cases hlen : original.length = 0
    · have he : calculateMetrics sqrtFn original compressed k =
          { recall5 := JSNum.val 0, recall10 := JSNum.val 0, mrr := JSNum.val 0,
            mse := JSNum.val 0, localDistortion := JSNum.val 0,
            trustworthiness := JSNum.val 0, kendallTau := JSNum.val 0,
            compressionRatio := JSNum.val 0, precision10 := some (JSNum.val 0),
            kVariance := some (JSNum.val 0), perDimensionMSE := some [],
            dimensionCollapseRatio := some (JSNum.val 1),
            centroidSurvivalRatio := some (JSNum.val 0), collapseIndex := none } := by
        unfold calculateMetrics
        rw [if_pos hlen]
      rw [he]
      refine ⟨by simp, by simp, by simp, by simp, by simp, by simp, by simp, by simp,
        ?_, ?_, ?_⟩ <;>
        (intro x hx; simp only [Option.some_inj] at hx; rw [← hx]; simp)
    · have he : calculateMetrics sqrtFn original compressed k =
          metricsFromAcc (calculateKendallTau sqrtFn original compressed 40)
            original.length (countUniqueVectors compressed)
            ((sampleIndices original.length).foldl
              (metricsStep sqrtFn original compressed (original.headD []).length)
              (initAcc (original.headD []).length)) := by
        unfold calculateMetrics
        rw [if_neg hlen]
      rw [he]
      exact metricsFromAcc_fields_ne_nan _
        (calculateKendallTau_ne_nan sqrtFn original compressed 40) hlen
        (Nat.one_le_iff_ne_zero.mp (one_le_countUniqueVectors compressed)) _
  · intro hne hskip
    have hlen : ¬ original.length = 0 := by
      simpa [List.length_eq_zero] using hne
    have he : calculateMetrics sqrtFn original compressed k =
        metricsFromAcc (calculateKendallTau sqrtFn original compressed 40)
          original.length (countUniqueVectors compressed)
          ((sampleIndices original.length).foldl
            (metricsStep sqrtFn original compressed (original.headD []).length)
            (initAcc (original.headD []).length)) := by
      unfold calculateMetrics
      rw [if_neg hlen]
    rw [he, foldl_metricsStep_skip sqrtFn original compressed _ hskip]
    have hkv : kVarianceOf (initAcc (original.headD []).length).recallAtK =
        JSNum.nan := rfl
    refine ⟨?_, ?_, ?_⟩
    · have hproj : (metricsFromAcc (calculateKendallTau sqrtFn original compressed 40)
          original.length (countUniqueVectors compressed)
          (initAcc (original.headD []).length)).kVariance =
            some (kVarianceOf (initAcc (original.headD []).length).recallAtK) := rfl
      rw [hproj, hkv]
    · have hproj : (metricsFromAcc (calculateKendallTau sqrtFn original compressed 40)
          original.length (countUniqueVectors compressed)
          (initAcc (original.headD []).length)).collapseIndex =
            some (collapseIndexOf
              (safeDiv (initAcc (original.headD []).length).recall5Sum
                (JSNum.val (initAcc (original.headD []).length).count))
              (safeDiv (initAcc (original.headD []).length).precision10Sum
                (JSNum.val (initAcc (original.headD []).length).count))
              (kVarianceOf (initAcc (original.headD []).length).recallAtK)
              (JSNum.jdiv (JSNum.val (countUniqueVectors compressed))
                (JSNum.val original.length))) := rfl
      rw [hproj, hkv, collapseIndexOf_nan_kVariance]
    · intro l hl x hx
      have hproj : (metricsFromAcc (calculateKendallTau sqrtFn original compressed 40)
          original.length (countUniqueVectors compressed)
          (initAcc (original.headD []).length)).perDimensionMSE =
            some ((initAcc (original.headD []).length).perDimMSE.map
              (fun v => JSNum.jdiv v
                (JSNum.val ((initAcc (original.headD []).length).count : ℚ)))) := rfl
      rw [hproj] at hl
      rw [← Option.some_inj.mp hl] at hx
      obtain ⟨v, _, rfl⟩ := List.mem_map.mp hx
      have hzero : (JSNum.val (((initAcc (original.headD []).length).count : ℕ) : ℚ)) =
          JSNum.val 0 := by
        norm_num [initAcc]
      rw [hzero, jdiv_zero_den]

set_option maxRecDepth 20000 in
/-- Witness for C1: at the concrete input `[[0]]`, `[]` the `safeDiv`-guarded
`mrr` is not NaN while `kVariance` and `collapseIndex` are NaN. -/
theorem calculateMetrics_nan_profile_witness :
    (calculateMetrics sqrtQ [[JSNum.val 0]] [] 10).mrr ≠ JSNum.nan ∧
    (calculateMetrics sqrtQ [[JSNum.val 0]] [] 10).kVariance = some JSNum.nan ∧
    (calculateMetrics sqrtQ [[JSNum.val 0]] [] 10).collapseIndex = some JSNum.nan :=
  ⟨(calculateMetrics_nan_profile sqrtQ [[JSNum.val 0]] [] 10).1.2.2.1,
   ((calculateMetrics_nan_profile sqrtQ [[JSNum.val 0]] [] 10).2
     (by decide) (by decide)).1,
   ((calculateMetrics_nan_profile sqrtQ [[JSNum.val 0]] [] 10).2
     (by decide) (by decide)).2.1⟩

set_option maxRecDepth 20000 in
/-- Claim C3 (counterexample): on the single-vector pair `[[0]]`, `[[0]]` the
true neighbor list is `[0]`, its second entry is undefined, and the code adds
1 (not 0) to the MRR sum, so the resulting `mrr` is 1 where the claim requires
0. -/
theorem mrr_undefined_target_counterexample :
    (calculateMetrics sqrtQ [[JSNum.val 0]] [[JSNum.val 0]] 10).mrr = JSNum.val 1 ∧
      JSNum.val 1 ≠ JSNum.val 0 := by
  refine ⟨?_, ?_⟩ <;> decide

/-- Claim C3 (amended): the per-query MRR contribution of `calculateMetrics`
is `1/(rank+1)` when the second entry of the true neighbor list occurs at
position `rank` of the compressed list, 0 on a compressed-list lookup miss,
and 1 — not 0 — when the second entry is undefined; in particular on any
single-vector input pair the reported `mrr` is 1. -/
theorem mrr_contribution_amended :
    (∀ (sqrtFn : ℚ → ℚ) (v w : Vec) (k : ℕ),
      (calculateMetrics sqrtFn [v] [w] k).mrr = JSNum.val 1) ∧
    (∀ (trueNN compNN : List ℕ) (t : ℕ), trueNN.get? 1 = some t →
      (t ∈ compNN → mrrContrib trueNN compNN =
        JSNum.val (1 / ((compNN.indexOf t : ℚ) + 1))) ∧
      (t ∉ compNN → mrrContrib trueNN compNN = JSNum.val 0)) ∧
    (∀ trueNN compNN : List ℕ, trueNN.get? 1 = none →
      mrrContrib trueNN compNN = JSNum.val 1) := by
  refine ⟨?_, ?_, ?_⟩
  · intro sqrtFn v w k
    have hmrr : (calculateMetrics sqrtFn [v] [w] k).mrr =
        safeDiv (((sampleIndices 1).foldl
            (metricsStep sqrtFn [v] [w] (([v] : List Vec).headD []).length)
            (initAcc (([v] : List Vec).headD []).length)).mrrSum)
          (JSNum.val ((((sampleIndices 1).foldl
            (metricsStep sqrtFn [v] [w] (([v] : List Vec).headD []).length)
            (initAcc (([v] : List Vec).headD []).length)).count : ℕ) : ℚ)) := rfl
    have h1 : ((sampleIndices 1).foldl
        (metricsStep sqrtFn [v] [w] (([v] : List Vec).headD []).length)
        (initAcc (([v] : List Vec).headD []).length)).mrrSum = JSNum.val 1 := rfl
    have h2 : ((sampleIndices 1).foldl
        (metricsStep sqrtFn [v] [w] (([v] : List Vec).headD []).length)
        (initAcc (([v] : List Vec).headD []).length)).count = 1 := rfl
    rw [hmrr, h1, h2]
    rfl
  · intro trueNN compNN t ht
    constructor
    · intro hmem
      rw [mrrContrib, ht]
      simp only [hmem, if_true]
      have hne : ((compNN.indexOf t + 1 : ℕ) : ℚ) ≠ 0 :=
        Nat.cast_ne_zero.mpr (Nat.succ_ne_zero _)
      rw [qdivQ_eq _ _ hne]
      push_cast
      rfl
    · intro hmem
      rw [mrrContrib, ht]
      simp [hmem]
  · intro trueNN compNN ht
    rw [mrrContrib, ht]

/-- Witness for C3: the amended per-query MRR behavior at concrete inputs —
a found target at rank 1 contributes 1/2, a lookup miss contributes 0, and a
single-vector pair reports `mrr = 1`. -/
theorem mrr_contribution_amended_witness :
    (calculateMetrics sqrtQ [[JSNum.val 2]] [[JSNum.val 3]] 10).mrr = JSNum.val 1 ∧
    mrrContrib [4, 7] [9, 7, 8] = JSNum.val (1 / ((List.indexOf 7 [9, 7, 8] : ℚ) + 1)) ∧
    mrrContrib [4, 7] [9, 8] = JSNum.val 0 :=
  ⟨mrr_contribution_amended.1 sqrtQ [JSNum.val 2] [JSNum.val 3] 10,
   (mrr_contribution_amended.2.1 [4, 7] [9, 7, 8] 7 (by decide)).1 (by decide),
   (mrr_contribution_amended.2.1 [4, 7] [9, 8] 7 (by decide)).2 (by decide)⟩

/-- Claim C5 (counterexample): the bundle produced by `calculateMetrics` on an
empty original set has `compressionRatio = 0`, which is neither `≥ 1.0` nor
`N / countDistinct(compressed)` being well-behaved — refuting the claim's
"for every MetricsBundle produced by computeMetrics". -/
theorem compressionRatio_counterexample_empty :
    (calculateMetrics sqrtQ [] [] 10).compressionRatio = JSNum.val 0 ∧
      ¬ (1 : ℚ) ≤ 0 := ⟨rfl, by decide⟩

/-- Claim C5 (amended): on every nonempty input, `compress` returns ratio
`N / countUniqueVectors(compressed)` and that ratio is a rational `≥ 1`; on
empty input `compress` returns ratio 1.0 (not the formula, whose value would
be 0); `compressWithAnalysis` passes the `compress` ratio through; and the
bundle built by `calculateMetrics` on a nonempty original carries
`N / countUniqueVectors(compressed)`, which is `≥ 1` whenever the compressed
set is no longer than the original (as holds for every pipeline-produced
pair), while on an empty original the bundle's ratio is 0. -/
theorem compressionRatio_formula_amended :
    (∀ (sqrtFn : ℚ → ℚ) (opts : CompressionOptions) (vectors : List Vec),
      vectors ≠ [] →
      (compress sqrtFn opts vectors).compressionRatio =
        JSNum.jdiv (JSNum.val vectors.length)
          (JSNum.val (countUniqueVectors (compress sqrtFn opts vectors).compressed)) ∧
      ∃ q : ℚ, (compress sqrtFn opts vectors).compressionRatio = JSNum.val q ∧ 1 ≤ q) ∧
    (∀ (sqrtFn : ℚ → ℚ) (opts : CompressionOptions),
      (compress sqrtFn opts []).compressionRatio = JSNum.val 1) ∧
    (∀ (sqrtFn : ℚ → ℚ) (opts : CompressionOptions) (vectors : List Vec),
      (compressWithAnalysis sqrtFn opts vectors).compressionRatio =
        (compress sqrtFn opts vectors).compressionRatio) ∧
    (∀ (sqrtFn : ℚ → ℚ) (original compressed : List Vec) (k : ℕ),
      original ≠ [] →
      (calculateMetrics sqrtFn original compressed k).compressionRatio =
        JSNum.jdiv (JSNum.val original.length)
          (JSNum.val (countUniqueVectors compressed)) ∧
      (compressed.length ≤ original.length →
        ∃ q : ℚ, (calculateMetrics sqrtFn original compressed k).compressionRatio =
          JSNum.val q ∧ 1 ≤ q)) ∧
    (∀ (sqrtFn : ℚ → ℚ) (compressed : List Vec) (k : ℕ),
      (calculateMetrics sqrtFn [] compressed k).compressionRatio = JSNum.val 0) := by
  have hcount_le : ∀ vs : List Vec, countUniqueVectors vs ≤ max 1 vs.length := by
    intro vs
    rw [countUniqueVectors]
    have hd : ((vs.map (fun v => v.map round6)).dedup).length ≤ vs.length := by
      calc ((vs.map (fun v => v.map round6)).dedup).length
          ≤ (vs.map (fun v => v.map round6)).length := (List.dedup_sublist _).length_le
        _ = vs.length := by simp
    omega
  refine ⟨?_, ?_, ?_, ?_, ?_⟩
  · intro sqrtFn opts vectors hne
    have hlen : ¬ vectors.length = 0 := by
      simpa [List.length_eq_zero] using hne
    have hlenpos : 1 ≤ vectors.length := Nat.one_le_iff_ne_zero.mpr hlen
    constructor
    · simp only [compress, if_neg hlen]
    · have hclen : (compress sqrtFn opts vectors).compressed.length = vectors.length := by
        simp only [compress, if_neg hlen]
        rw [applyMethod_length]
        split <;> simp [normalizeVectors_length]
      have hle : countUniqueVectors (compress sqrtFn opts vectors).compressed ≤
          vectors.length := by
        have := hcount_le (compress sqrtFn opts vectors).compressed
        rw [hclen] at this
        omega
      obtain ⟨q, hq, hq1⟩ := jdiv_nat_ratio_ge_one
        (one_le_countUniqueVectors (compress sqrtFn opts vectors).compressed) hle
      refine ⟨q, ?_, hq1⟩
      calc (compress sqrtFn opts vectors).compressionRatio
          = JSNum.jdiv (JSNum.val vectors.length)
            (JSNum.val (countUniqueVectors (compress sqrtFn opts vectors).compressed)) := by
            simp only [compress, if_neg hlen]
        _ = JSNum.val q := hq
  · intro sqrtFn opts
    rfl
  · intro sqrtFn opts vectors
    by_cases hlen : vectors.length = 0
    · have : vectors = [] := List.length_eq_zero.mp hlen
      subst this
      rfl
    · simp only [compressWithAnalysis, if_neg hlen]
  · intro sqrtFn original compressed k hne
    have hlen : ¬ original.length = 0 := by
      simpa [List.length_eq_zero] using hne
    have hlenpos : 1 ≤ original.length := Nat.one_le_iff_ne_zero.mpr hlen
    constructor
    · simp only [calculateMetrics, if_neg hlen]
      rfl
    · intro hcl
      have hle : countUniqueVectors compressed ≤ original.length := by
        have := hcount_le compressed
        omega
      obtain ⟨q, hq, hq1⟩ := jdiv_nat_ratio_ge_one
        (one_le_countUniqueVectors compressed) hle
      refine ⟨q, ?_, hq1⟩
      calc (calculateMetrics sqrtFn original compressed k).compressionRatio
          = JSNum.jdiv (JSNum.val original.length)
            (JSNum.val (countUniqueVectors compressed)) := by
            simp only [calculateMetrics, if_neg hlen]
            rfl
        _ = JSNum.val q := hq
  · intro sqrtFn compressed k
    rfl

/-- Witness for C5: ratio formula and lower bound at concrete inputs. -/
theorem compressionRatio_formula_amended_witness :
    ((compress sqrtQ DEFAULT_OPTIONS [[JSNum.val 1]]).compressionRatio =
      JSNum.jdiv (JSNum.val ([[JSNum.val 1]] : List Vec).length)
        (JSNum.val (countUniqueVectors
          (compress sqrtQ DEFAULT_OPTIONS [[JSNum.val 1]]).compressed)) ∧
      ∃ q : ℚ, (compress sqrtQ DEFAULT_OPTIONS [[JSNum.val 1]]).compressionRatio =
        JSNum.val q ∧ 1 ≤ q) ∧
    ((calculateMetrics sqrtQ [[JSNum.val 0]] [[JSNum.val 0]] 10).compressionRatio =
      JSNum.jdiv (JSNum.val ([[JSNum.val 0]] : List Vec).length)
        (JSNum.val (countUniqueVectors [[JSNum.val 0]])) ∧
      (([[JSNum.val 0]] : List Vec).length ≤ ([[JSNum.val 0]] : List Vec).length →
        ∃ q : ℚ, (calculateMetrics sqrtQ [[JSNum.val 0]] [[JSNum.val 0]] 10).compressionRatio =
          JSNum.val q ∧ 1 ≤ q)) :=
  ⟨compressionRatio_formula_amended.1 sqrtQ DEFAULT_OPTIONS [[JSNum.val 1]] (by decide),
   compressionRatio_formula_amended.2.2.2.1 sqrtQ [[JSNum.val 0]] [[JSNum.val 0]] 10 (by decide)⟩

/-- Claim C10: with normalization enabled and a nonempty input,
`compressWithAnalysis` hands the metrics engine the raw input vectors as the
original set and the quantization of the *normalized* vectors as the
compressed set — the normalized originals themselves never reach
`calculateMetrics`, so the distortion metrics compare across the two
coordinate scales. -/
theorem metrics_compare_raw_against_normalized (sqrtFn : ℚ → ℚ)
    (opts : CompressionOptions) (vectors : List Vec)
    (hn : opts.normalize = true) (hne : vectors ≠ []) :
    (compressWithAnalysis sqrtFn opts vectors).metrics =
      calculateMetrics sqrtFn vectors
        (applyMethod sqrtFn opts (normalizeVectors sqrtFn vectors)) opts.k ∧
    (compressWithAnalysis sqrtFn opts vectors).compressed =
      applyMethod sqrtFn opts (normalizeVectors sqrtFn vectors) ∧
    (compressWithAnalysis sqrtFn opts vectors).original = some vectors := by
  have hlen : ¬ vectors.length = 0 := by
    simpa [List.length_eq_zero] using hne
  refine ⟨?_, ?_, ?_⟩ <;>
    simp only [compressWithAnalysis, compress, if_neg hlen, hn, if_true]

/-- Witness for C10: the argument mix at a concrete input under the default
options (normalization on). -/
theorem metrics_compare_raw_against_normalized_witness :
    (compressWithAnalysis sqrtQ DEFAULT_OPTIONS [[JSNum.val 3]]).metrics =
      calculateMetrics sqrtQ [[JSNum.val 3]]
        (applyMethod sqrtQ DEFAULT_OPTIONS (normalizeVectors sqrtQ [[JSNum.val 3]]))
        DEFAULT_OPTIONS.k ∧
    (compressWithAnalysis sqrtQ DEFAULT_OPTIONS [[JSNum.val 3]]).compressed =
      applyMethod sqrtQ DEFAULT_OPTIONS (normalizeVectors sqrtQ [[JSNum.val 3]]) ∧
    (compressWithAnalysis sqrtQ DEFAULT_OPTIONS [[JSNum.val 3]]).original =
      some [[JSNum.val 3]] :=
  metrics_compare_raw_against_normalized sqrtQ DEFAULT_OPTIONS [[JSNum.val 3]]
    rfl (by decide)

/-- Witness for C9: step 0 on a concrete vector set. -/
theorem quantizers_identity_on_nonpositive_step_witness :
    latticeQuantization [[JSNum.val 1, JSNum.val 2]] (JSNum.val 0) =
        [[JSNum.val 1, JSNum.val 2]] ∧
    boundaryAwareQuantization sqrtQ [[JSNum.val 1, JSNum.val 2]] (JSNum.val 0)
        (JSNum.val (Rat.divInt 1 10)) = [[JSNum.val 1, JSNum.val 2]] :=
  quantizers_identity_on_nonpositive_step sqrtQ [[JSNum.val 1, JSNum.val 2]] 0
    (JSNum.val (Rat.divInt 1 10)) (le_refl 0)

end VecCompress


